import Mathlib

/-!
Shallow embedding of the manifest-to-diagram compiler of the
logic-command-center repository.

Sources embedded:
- `src/types.ts` — the manifest data model (structures below);
- `src/diagrams.ts` — `safeNodeId`, `escapeLabel`, `escapeMindmapText`,
  `formatCodeRef`, `uniqueStrings`, `generateProjectMindmap`,
  `generateModuleDependencyGraph`, `generateFlowchartForFlow`,
  `generateStateDiagram` (namespace `Diagrams`);
- the outline/markdown part of `src/manifestClient.ts` — `mdEscape`,
  `mdCode`, `formatCodeRef`, `push`/`pushTitle`, `moduleToMarkdown`,
  `generateMindmapMarkdown` (namespace `Outline`).

JavaScript strings are modelled as Lean `String`/`List Char`, JS numbers on
the fields used by the emitters (`order`, `line`, `indent`) as `Int`,
optional fields as `Option`, and JS string truthiness (`if (s)`) as an
explicit emptiness test.  `Array.prototype.sort`, which is stable, is
modelled by `List.insertionSort` with the comparator's `≤`: the output of a
stable sort is uniquely determined by the comparator, and `insertionSort`
as defined in Mathlib is stable.  The single place where an emitter can
throw — `generateMindmapMarkdown` reads `manifest.entities.length` although
`entities` is an optional field — is modelled with `Except`, `.error ()`
standing for the thrown `TypeError`.
-/

namespace Manifest

/-- `CodeRef` from types.ts: file path + optional function name + optional line. -/
structure CodeRef where
  file : String
  function : Option String := none
  line : Option Int := none
deriving DecidableEq

/-- `FlowStep` from types.ts. -/
structure FlowStep where
  id : String
  order : Int
  name : String
  description : Option String := none
  rules : Option (List String) := none
deriving DecidableEq

/-- `Flow` from types.ts. -/
structure Flow where
  id : String
  name : String
  description : Option String := none
  trigger : Option String := none
  steps : List FlowStep
  code_ref : Option CodeRef := none
deriving DecidableEq

/-- The `priority` union type `'high' | 'medium' | 'low'` of `Rule`. -/
inductive Priority where
  | high
  | medium
  | low
deriving DecidableEq

/-- The `affects` record of `Rule` from types.ts. -/
structure RuleAffects where
  entities : Option (List String) := none
  fields : Option (List String) := none
  operations : Option (List String) := none
deriving DecidableEq

/-- `Rule` from types.ts. -/
structure Rule where
  id : String
  name : String
  description : String
  priority : Priority
  category : Option String := none
  constraints : Option (List String) := none
  effects : Option (List String) := none
  affects : Option RuleAffects := none
  code_ref : Option CodeRef := none
deriving DecidableEq

/-- `StateDefinition` from types.ts. -/
structure StateDefinition where
  id : String
  name : String
  description : Option String := none
  is_initial : Option Bool := none
  is_final : Option Bool := none
deriving DecidableEq

/-- `StateTransition` from types.ts. -/
structure StateTransition where
  «from» : String
  «to» : String
  trigger : String
  description : Option String := none
  rules : Option (List String) := none
deriving DecidableEq

/-- `StateMachine` from types.ts. -/
structure StateMachine where
  id : String
  name : String
  description : Option String := none
  entity : String
  field : String
  states : List StateDefinition
  transitions : List StateTransition
deriving DecidableEq

/-- `PseudocodeStep` from types.ts (`type` kept as the raw union string). -/
structure PseudocodeStep where
  indent : Int
  text : String
  type : String
deriving DecidableEq

/-- `ApiCall` from types.ts. -/
structure ApiCall where
  name : String
  type : String
  method : Option String := none
  endpoint : Option String := none
  table : Option String := none
  description : Option String := none
deriving DecidableEq

/-- `Pseudocode` from types.ts. -/
structure Pseudocode where
  id : String
  name : String
  description : Option String := none
  params : Option (List String) := none
  returns : Option String := none
  steps : List PseudocodeStep
  calls : List ApiCall
  code_ref : Option CodeRef := none
deriving DecidableEq

/-- `Module` from types.ts. -/
structure Module where
  id : String
  name : String
  description : String
  tags : Option (List String) := none
  dependencies : Option (List String) := none
  code_refs : Option (List CodeRef) := none
  flows : List Flow
  rules : List Rule
  state_machines : List StateMachine
  pseudocodes : List Pseudocode
deriving DecidableEq

/-- A key field of an `Entity` as read by the outline emitter
(`e.key_fields`: `f.name`, `f.source`, `f.label`, `f.description`).
These fields are absent from the `Entity` interface in types.ts but are
dereferenced (behind truthiness guards) by `generateMindmapMarkdown`. -/
structure EntityKeyField where
  name : String
  label : String
  description : String
  source : Option String := none
deriving DecidableEq

/-- A status entry of an `Entity` as read by the outline emitter. -/
structure EntityStatus where
  label : String
  value : String
  description : Option String := none
deriving DecidableEq

/-- `Entity` from types.ts (`id`, `name`, `description?`), extended with the
optional `models`/`key_fields`/`statuses` lists that
`generateMindmapMarkdown` reads behind `&&` guards. -/
structure Entity where
  id : String
  name : String
  description : Option String := none
  models : Option (List String) := none
  key_fields : Option (List EntityKeyField) := none
  statuses : Option (List EntityStatus) := none
deriving DecidableEq

/-- `ModelField` reference record from types.ts. -/
structure ModelFieldReference where
  model : String
  field : String
deriving DecidableEq

/-- An enum option of a `ModelField` from types.ts. -/
structure EnumOption where
  value : String
  label : String
deriving DecidableEq

/-- `ModelField` from types.ts. -/
structure ModelField where
  name : String
  type : String
  label : String
  description : Option String := none
  required : Option Bool := none
  unique : Option Bool := none
  enum_options : Option (List EnumOption) := none
  references : Option ModelFieldReference := none
deriving DecidableEq

/-- The `source` record of a `DataModel` from types.ts. -/
structure DataModelSource where
  file : String
  type : String
deriving DecidableEq

/-- `DataModel` from types.ts. -/
structure DataModel where
  id : String
  name : String
  table : String
  description : String
  entity : Option String := none
  fields : List ModelField
  source : Option DataModelSource := none
deriving DecidableEq

/-- `ProjectInfo` from types.ts. -/
structure ProjectInfo where
  id : String
  name : String
  description : String
  version : String
  updated_at : String
deriving DecidableEq

/-- `GlossaryEntry` from types.ts. -/
structure GlossaryEntry where
  term : String
  description : String
deriving DecidableEq

/-- `ChangelogEntry` from types.ts (`type` kept as the raw union string). -/
structure ChangelogEntry where
  date : String
  type : String
  summary : String
  details : Option String := none
deriving DecidableEq

/-- `LogicManifest` from types.ts.  `entities` is optional
(`entities?: Entity[]`); the glossary `Record<string, GlossaryEntry>` is
modelled as an association list in insertion order (matching
`Object.entries`/`Object.keys` enumeration order). -/
structure LogicManifest where
  schema : String
  project : ProjectInfo
  modules : List Module
  data_models : List DataModel
  entities : Option (List Entity) := none
  glossary : List (String × GlossaryEntry)
  changelog : List ChangelogEntry
deriving DecidableEq

/-- JS string truthiness on an optional string: `undefined`, `null` and the
empty string are falsy. -/
def otruthy : Option String → Option String
  | some s => if s = "" then none else some s
  | none => none

/-- `String(x)` applied to a possibly-`undefined` string value. -/
def jsStr : Option String → String
  | some s => s
  | none => "undefined"

/-- The comparator `(a, b) => a.order - b.order` as the total preorder it
induces on steps. -/
def stepLE (a b : FlowStep) : Prop := a.order ≤ b.order

instance : DecidableRel stepLE := fun a b => Int.decLe a.order b.order

instance : IsTotal FlowStep stepLE := ⟨fun a b => Int.le_total a.order b.order⟩

instance : IsTrans FlowStep stepLE := ⟨fun _ _ _ h h' => Int.le_trans h h'⟩

/-- `[...steps].sort((a, b) => a.order - b.order)`: JS `Array.prototype.sort`
is stable, and a stable sort's output is uniquely determined by its
comparator, so the stable `insertionSort` is a faithful model. -/
def sortSteps (steps : List FlowStep) : List FlowStep :=
  List.insertionSort stepLE steps

end Manifest

namespace Diagrams

open Manifest

/-- The character class `[a-zA-Z0-9_]` of `safeNodeId`'s regex. -/
def isWordChar (c : Char) : Bool :=
  ('a' ≤ c && c ≤ 'z') || ('A' ≤ c && c ≤ 'Z') || ('0' ≤ c && c ≤ '9') || c == '_'

/-- `raw.replace(/[^a-zA-Z0-9_]/g, '_')`. -/
def sanitizeL (raw : List Char) : List Char :=
  raw.map (fun c => if isWordChar c then c else '_')

/-- `/^[0-9]/.test(id) ? '_' + id : id`. -/
def normalizeL (id : List Char) : List Char :=
  match id with
  | [] => []
  | c :: _ => if c.isDigit then '_' :: id else id

/-- `safeNodeId` from diagrams.ts over character lists; the final
`` `${prefix}${normalized}` || `${prefix}x` `` falls back exactly when the
concatenated string is empty (the empty string is the only falsy string). -/
def safeNodeIdL (pfx raw : List Char) : List Char :=
  let normalized := normalizeL (sanitizeL raw)
  if pfx ++ normalized = [] then pfx ++ ['x'] else pfx ++ normalized

/-- `safeNodeId(prefix, raw)` from diagrams.ts. -/
def safeNodeId (pfx raw : String) : String :=
  ⟨safeNodeIdL pfx.data raw.data⟩

/-- `text.replaceAll(pat, rep)` for a single-character pattern. -/
def replaceAllL (pat : Char) (rep : List Char) (cs : List Char) : List Char :=
  cs.flatMap (fun c => if c = pat then rep else [c])

/-- `escapeLabel` from diagrams.ts: backslash, then double quote, then
newline, in source order. -/
def escapeLabelL (cs : List Char) : List Char :=
  replaceAllL '\n' "<br/>".data
    (replaceAllL '"' ['\'']
      (replaceAllL '\\' ['\\', '\\'] cs))

/-- `escapeLabel(text)` from diagrams.ts. -/
def escapeLabel (s : String) : String :=
  ⟨escapeLabelL s.data⟩

/-- `escapeMindmapText` from diagrams.ts: `escapeLabel`, then ASCII
parentheses and brackets replaced by full-width equivalents. -/
def escapeMindmapTextL (cs : List Char) : List Char :=
  replaceAllL ']' ['】']
    (replaceAllL '[' ['【']
      (replaceAllL ')' ['）']
        (replaceAllL '(' ['（'] (escapeLabelL cs))))

/-- `escapeMindmapText(text)` from diagrams.ts. -/
def escapeMindmapText (s : String) : String :=
  ⟨escapeMindmapTextL s.data⟩

/-- `formatCodeRef` from diagrams.ts: joins file, truthy function name, and
a present line number with `:`; empty string for an absent ref. -/
def formatCodeRef : Option CodeRef → String
  | none => ""
  | some ref =>
    String.intercalate ":"
      ([ref.file]
        ++ (match otruthy ref.function with | some f => [f] | none => [])
        ++ (match ref.line with | some n => [toString n] | none => []))

/-- The first-seen-order deduplication behind `Array.from(new Set(...))`. -/
def dedupAux : List String → List String → List String
  | [], _ => []
  | x :: xs, seen => if x ∈ seen then dedupAux xs seen else x :: dedupAux xs (x :: seen)

/-- `uniqueStrings` from diagrams.ts: drops falsy (empty) strings, then
deduplicates keeping first-seen order. -/
def uniqueStrings (xs : List String) : List String :=
  dedupAux (xs.filter (fun s => !(s == ""))) []

/-- The per-module block of `generateProjectMindmap`'s 模块 section. -/
def mindmapModuleLines (m : Module) : List String :=
  ["      " ++ escapeMindmapText (m.name ++ " (" ++ m.id ++ ")")]
  ++ (match m.dependencies with
      | some deps =>
        if deps.length > 0 then
          "        依赖" :: (uniqueStrings deps).map (fun dep => "          " ++ escapeMindmapText dep)
        else []
      | none => [])
  ++ (let moduleCodeRefs := uniqueStrings ((m.code_refs.getD []).map (fun r => formatCodeRef (some r)))
      if moduleCodeRefs.length > 0 then
        "        代码入口" :: moduleCodeRefs.map (fun c => "          " ++ escapeMindmapText c)
      else [])
  ++ (if m.flows.length > 0 then
        "        流程" :: m.flows.flatMap (fun f =>
          ("          " ++ escapeMindmapText f.name) ::
          (match otruthy (some (formatCodeRef f.code_ref)) with
           | some code => ["            代码：" ++ escapeMindmapText code]
           | none => []))
      else [])
  ++ (if m.rules.length > 0 then
        "        规则" :: m.rules.flatMap (fun r =>
          ("          " ++ escapeMindmapText r.name) ::
          (match otruthy (some (formatCodeRef r.code_ref)) with
           | some code => ["            代码：" ++ escapeMindmapText code]
           | none => []))
      else [])
  ++ (if m.state_machines.length > 0 then
        "        状态机" :: m.state_machines.map (fun sm =>
          "          " ++ escapeMindmapText (sm.name ++ "（" ++ sm.entity ++ "." ++ sm.field ++ "）"))
      else [])
  ++ (if m.pseudocodes.length > 0 then
        "        伪代码" :: m.pseudocodes.flatMap (fun pc =>
          ("          " ++ escapeMindmapText pc.name) ::
          (match otruthy (some (formatCodeRef pc.code_ref)) with
           | some code => ["            代码：" ++ escapeMindmapText code]
           | none => []))
      else [])

/-- The lines of `generateProjectMindmap` from diagrams.ts, in emission
order. -/
def generateProjectMindmapLines (manifest : LogicManifest) : List String :=
  ["mindmap",
   "  root((" ++ escapeMindmapText ("项目：" ++ manifest.project.name ++ " (" ++ manifest.project.id ++ ")") ++ "))",
   "    模块"]
  ++ manifest.modules.flatMap mindmapModuleLines
  ++ (match manifest.entities with
      | some es =>
        if es.length > 0 then
          "    实体" :: es.map (fun e => "      " ++ escapeMindmapText e.name ++ " (" ++ escapeMindmapText e.id ++ ")")
        else []
      | none => [])
  ++ (if manifest.data_models.length > 0 then
        "    数据模型" :: manifest.data_models.flatMap (fun dm =>
          ("      " ++ escapeMindmapText (if dm.table = "" then dm.name else dm.name ++ " (" ++ dm.table ++ ")")) ::
          (match dm.source with
           | some src => if src.file = "" then [] else ["        来源：" ++ escapeMindmapText src.file]
           | none => []))
      else [])

/-- `generateProjectMindmap(manifest)` from diagrams.ts. -/
def generateProjectMindmap (manifest : LogicManifest) : String :=
  String.intercalate "\n" (generateProjectMindmapLines manifest)

/-- One module node line of `generateModuleDependencyGraph`. -/
def moduleNodeLine (m : Module) : String :=
  "  " ++ safeNodeId "mod_" m.id ++ "[\"" ++ escapeLabel m.name ++ "<br/>(" ++ escapeLabel m.id ++ ")\"]"

/-- The `byId` map of `generateModuleDependencyGraph`: `Map.set` in a loop,
so a later module with the same id wins. -/
def byId (modules : List Module) (key : String) : Option Module :=
  modules.foldl (fun acc m => if m.id = key then some m else acc) none

/-- The edge (and on-demand external-node) lines contributed by one module
in `generateModuleDependencyGraph`'s second loop. -/
def depEdgeLines (modules : List Module) (m : Module) : List String :=
  (uniqueStrings (m.dependencies.getD [])).flatMap (fun dep =>
    match byId modules dep with
    | some depMod => ["  " ++ safeNodeId "mod_" m.id ++ " --> " ++ safeNodeId "mod_" depMod.id]
    | none =>
      ["  " ++ safeNodeId "ext_" dep ++ "[\"" ++ escapeLabel dep ++ "<br/>(外部/未知模块)\"]",
       "  " ++ safeNodeId "mod_" m.id ++ " --> " ++ safeNodeId "ext_" dep])

/-- All edge-section lines of `generateModuleDependencyGraph`. -/
def depEdgesAll (modules : List Module) : List String :=
  modules.flatMap (depEdgeLines modules)

/-- `generateModuleDependencyGraph(manifest)` from diagrams.ts. -/
def generateModuleDependencyGraph (manifest : LogicManifest) : String :=
  String.intercalate "\n"
    ("flowchart LR" :: (manifest.modules.map moduleNodeLine ++ depEdgesAll manifest.modules))

/-- The `rulesById` map of `generateFlowchartForFlow` (`new Map` over
pairs: later duplicate rule ids win). -/
def rulesById (rules : List Rule) (key : String) : Option Rule :=
  rules.foldl (fun acc r => if r.id = key then some r else acc) none

/-- The label parts of one step node: `"<order>. <name>"`, the truthy
description, then the resolved de-duplicated rule names. -/
def stepLabelParts (rules : List Rule) (s : FlowStep) : List String :=
  [toString s.order ++ ". " ++ s.name]
  ++ (match otruthy s.description with | some d => [d] | none => [])
  ++ (let ruleNames := uniqueStrings ((s.rules.getD []).map (fun rid =>
        match rulesById rules rid with
        | some r => r.name
        | none => rid))
      if ruleNames.length > 0 then ["规则：" ++ String.intercalate "、" ruleNames] else [])

/-- The full label of one step node, before escaping. -/
def stepLabel (rules : List Rule) (s : FlowStep) : String :=
  String.intercalate "\n" (stepLabelParts rules s)

/-- The node line for the step at (0-based) position `i` of the sorted
step list: its node id is `S(i+1)`. -/
def stepNodeLine (rules : List Rule) (i : Nat) (s : FlowStep) : String :=
  "  S" ++ toString (i + 1) ++ "[\"" ++ escapeLabel (stepLabel rules s) ++ "\"]"

/-- `flow.trigger ? '触发：' + flow.trigger : '触发：-'`. -/
def triggerLabel (flow : Flow) : String :=
  match otruthy flow.trigger with
  | some t => "触发：" ++ t
  | none => "触发：-"

/-- The chain section of `generateFlowchartForFlow`: the placeholder block
when there are zero steps, otherwise the trigger edge and the sequential
step edges. -/
def chainLines : Nat → List String
  | 0 => ["  EMPTY[\"暂无步骤\"]", "  TR --> EMPTY"]
  | n + 1 => "  TR --> S1" :: (List.range n).map (fun i => "  S" ++ toString (i + 1) ++ " --> S" ++ toString (i + 2))

/-- The dotted code-location block of `generateFlowchartForFlow`. -/
def codeRefLines (flow : Flow) : List String :=
  match otruthy (some (formatCodeRef flow.code_ref)) with
  | some code => ["  CODE[\"" ++ escapeLabel ("代码：" ++ code) ++ "\"]", "  T -.-> CODE"]
  | none => []

/-- The lines of `generateFlowchartForFlow` from diagrams.ts, in emission
order. -/
def flowLines (flow : Flow) (rules : List Rule) : List String :=
  ["flowchart TD",
   "  T[\"" ++ escapeLabel flow.name ++ "\"]",
   "  TR([\"" ++ escapeLabel (triggerLabel flow) ++ "\"])",
   "  T --> TR"]
  ++ (sortSteps flow.steps).enum.map (fun p => stepNodeLine rules p.1 p.2)
  ++ chainLines (sortSteps flow.steps).length
  ++ codeRefLines flow

/-- `generateFlowchartForFlow(flow, rules)` from diagrams.ts. -/
def generateFlowchartForFlow (flow : Flow) (rules : List Rule) : String :=
  String.intercalate "\n" (flowLines flow rules)

/-- The alias `S${i+1}` minted for the state at (0-based) index `i`. -/
def stateAlias (i : Nat) : String :=
  "S" ++ toString (i + 1)

/-- The `aliasById` map of `generateStateDiagram` (`Map.set` in a loop, so
a later duplicate state id wins). -/
def aliasById (states : List StateDefinition) (key : String) : Option String :=
  states.enum.foldl (fun acc p => if p.2.id = key then some (stateAlias p.1) else acc) none

/-- `aliasById.get(x) ?? safeNodeId('S', x)`. -/
def resolveAlias (states : List StateDefinition) (key : String) : String :=
  (aliasById states key).getD (safeNodeId "S" key)

/-- One `state "name" as alias` declaration line. -/
def stateDeclLine (states : List StateDefinition) (s : StateDefinition) : String :=
  "  state \"" ++ escapeLabel s.name ++ "\" as " ++ resolveAlias states s.id

/-- `sm.states.find(s => s.is_initial)?.id ?? sm.states[0]?.id`. -/
def initialId (states : List StateDefinition) : Option String :=
  ((states.find? (fun s => s.is_initial.getD false)).map (fun s => s.id)).or
    (states.head?.map (fun s => s.id))

/-- The initial-transition block (`if (initial)` — a truthy id only). -/
def initialLines (states : List StateDefinition) : List String :=
  match otruthy (initialId states) with
  | some init => ["  [*] --> " ++ resolveAlias states init]
  | none => []

/-- One transition arrow line of `generateStateDiagram`. -/
def transitionLine (states : List StateDefinition) (t : StateTransition) : String :=
  "  " ++ resolveAlias states t.«from» ++ " --> " ++ resolveAlias states t.«to» ++
    (if t.trigger = "" then "" else ": " ++ t.trigger)

/-- The terminating arrows for states flagged final. -/
def finalLines (states : List StateDefinition) : List String :=
  (states.filter (fun s => s.is_final.getD false)).map
    (fun s => "  " ++ resolveAlias states s.id ++ " --> [*]")

/-- The lines of `generateStateDiagram` from diagrams.ts, in emission
order. -/
def stateDiagramLines (sm : StateMachine) : List String :=
  ["stateDiagram-v2",
   "  %% " ++ escapeLabel (sm.name ++ "（" ++ sm.entity ++ "." ++ sm.field ++ "）")]
  ++ sm.states.map (stateDeclLine sm.states)
  ++ initialLines sm.states
  ++ sm.transitions.map (transitionLine sm.states)
  ++ finalLines sm.states

/-- `generateStateDiagram(sm)` from diagrams.ts. -/
def generateStateDiagram (sm : StateMachine) : String :=
  String.intercalate "\n" (stateDiagramLines sm)

end Diagrams

namespace Outline

open Manifest

/-- Whitespace trimmed by `String.prototype.trim` (the characters relevant
here; JS also trims further Unicode space characters). -/
def trimL (cs : List Char) : List Char :=
  ((cs.dropWhile Char.isWhitespace).reverse.dropWhile Char.isWhitespace).reverse

/-- `mdEscape` from manifestClient.ts: drop `\r`, escape HTML (`&`, `<`,
`>` in source order), newlines to spaces, square brackets to full-width,
then trim. -/
def mdEscapeL (cs : List Char) : List Char :=
  trimL
    (Diagrams.replaceAllL ']' ['】']
      (Diagrams.replaceAllL '[' ['【']
        (Diagrams.replaceAllL '\n' [' ']
          (Diagrams.replaceAllL '>' "&gt;".data
            (Diagrams.replaceAllL '<' "&lt;".data
              (Diagrams.replaceAllL '&' "&amp;".data
                (Diagrams.replaceAllL '\r' [] cs)))))))

/-- `mdEscape(text)` from manifestClient.ts. -/
def mdEscape (s : String) : String :=
  ⟨mdEscapeL s.data⟩

/-- `mdCode` from manifestClient.ts: wrap in backticks, doubling the
delimiters and backslash-escaping inner backticks when present. -/
def mdCode (t : String) : String :=
  if t.data.contains '`' then
    "``" ++ (⟨Diagrams.replaceAllL '`' "\\`".data t.data⟩ : String) ++ "``"
  else "`" ++ t ++ "`"

/-- `formatCodeRef` from manifestClient.ts: `null` when the ref or its
file is falsy, else file/function/line joined with `:`. -/
def formatCodeRef : Option CodeRef → Option String
  | none => none
  | some ref =>
    if ref.file = "" then none
    else some (String.intercalate ":"
      ([ref.file]
        ++ (match otruthy ref.function with | some f => [f] | none => [])
        ++ (match ref.line with | some n => [toString n] | none => [])))

/-- `push(lines, level, text)`: a `- ` bullet line indented two spaces per
level (clamped below at 0). -/
def mdItem (level : Int) (text : String) : String :=
  String.join (List.replicate (max 0 level).toNat "  ") ++ "- " ++ text

/-- `pushTitle(lines, level, text)`: a heading line of `#` repeated
`min(6, max(1, level))` times. -/
def mdTitle (level : Int) (text : String) : String :=
  String.join (List.replicate (min 6 (max 1 level)).toNat "#") ++ " " ++ text

/-- The 代码入口 block of `moduleToMarkdown` (emitted only when
`code_refs` is present and non-empty). -/
def codeRefsBlock (m : Module) : List String :=
  match m.code_refs with
  | some refs =>
    if refs.length > 0 then
      mdItem 0 ("代码入口（" ++ toString refs.length ++ "）") ::
      refs.map (fun r =>
        match otruthy (formatCodeRef (some r)) with
        | some c => mdItem 1 (mdCode c)
        | none => mdItem 1 (mdCode r.file))
    else []
  | none => []

/-- One flow's outline lines inside the 流程 block of `moduleToMarkdown`. -/
def flowOutlineLines (f : Flow) : List String :=
  [mdItem 1 (mdEscape f.name)]
  ++ (match otruthy f.trigger with
      | some t => [mdItem 2 ("触发：" ++ mdEscape t)]
      | none => [])
  ++ (match otruthy f.description with
      | some d => [mdItem 2 ("说明：" ++ mdEscape d)]
      | none => [])
  ++ (match otruthy (formatCodeRef f.code_ref) with
      | some code => [mdItem 2 ("代码定位：" ++ mdCode code)]
      | none => [])
  ++ (if f.steps.length > 0 then
        mdItem 2 ("步骤（" ++ toString f.steps.length ++ "）") ::
        (sortSteps f.steps).map (fun s =>
          mdItem 3 (mdEscape (String.intercalate " / "
            ([toString s.order ++ ". " ++ mdEscape s.name]
              ++ (match otruthy s.description with | some d => [mdEscape d] | none => [])
              ++ (match s.rules with
                  | some rs => if rs.length > 0 then ["规则：" ++ mdEscape (String.intercalate "、" rs)] else []
                  | none => [])))))
      else [])

/-- The 流程 block of `moduleToMarkdown` (empty when the module has no
flows — the block is guarded by `m.flows.length > 0`). -/
def flowsBlock (m : Module) : List String :=
  if m.flows.length > 0 then
    mdItem 0 ("流程（" ++ toString m.flows.length ++ "）") :: m.flows.flatMap flowOutlineLines
  else []

/-- `r.priority === 'high' ? '高' : r.priority === 'medium' ? '中' : '低'`. -/
def priorityLabel : Priority → String
  | .high => "高"
  | .medium => "中"
  | .low => "低"

/-- The 规则 block of `moduleToMarkdown`. -/
def rulesBlock (m : Module) : List String :=
  if m.rules.length > 0 then
    mdItem 0 ("规则（" ++ toString m.rules.length ++ "）") ::
    m.rules.flatMap (fun r =>
      [mdItem 1 (mdEscape r.name), mdItem 2 ("优先级：" ++ priorityLabel r.priority)]
      ++ (match otruthy r.category with
          | some c => [mdItem 2 ("分类：" ++ mdEscape c)]
          | none => [])
      ++ (if r.description = "" then [] else [mdItem 2 ("说明：" ++ mdEscape r.description)])
      ++ (match otruthy (formatCodeRef r.code_ref) with
          | some code => [mdItem 2 ("代码定位：" ++ mdCode code)]
          | none => []))
  else []

/-- One state machine's outline lines inside the 状态机 block. -/
def smOutlineLines (sm : StateMachine) : List String :=
  [mdItem 1 (mdEscape sm.name ++ "（" ++ mdEscape sm.entity ++ "." ++ mdEscape sm.field ++ "）")]
  ++ (match otruthy sm.description with
      | some d => [mdItem 2 ("说明：" ++ mdEscape d)]
      | none => [])
  ++ [mdItem 2 ("状态（" ++ toString sm.states.length ++ "）")]
  ++ sm.states.map (fun s =>
      let tags := (if s.is_initial.getD false then ["初始"] else [])
        ++ (if s.is_final.getD false then ["终态"] else [])
      if tags.length > 0 then
        mdItem 3 (mdEscape s.name ++ "（" ++ String.intercalate "、" tags ++ "）")
      else mdItem 3 (mdEscape s.name))
  ++ (if sm.transitions.length > 0 then
        mdItem 2 ("转换（" ++ toString sm.transitions.length ++ "）") ::
        sm.transitions.map (fun t =>
          let label := mdEscape t.«from» ++ " -> " ++ mdEscape t.«to» ++ " / 触发：" ++ mdEscape t.trigger
          match otruthy t.description with
          | some d => mdItem 3 (label ++ " / " ++ mdEscape d)
          | none => mdItem 3 label)
      else [])

/-- The 状态机 block of `moduleToMarkdown`. -/
def smBlock (m : Module) : List String :=
  if m.state_machines.length > 0 then
    mdItem 0 ("状态机（" ++ toString m.state_machines.length ++ "）") ::
    m.state_machines.flatMap smOutlineLines
  else []

/-- One pseudocode's outline lines inside the 伪代码 block. -/
def pcOutlineLines (pc : Pseudocode) : List String :=
  [mdItem 1 (mdCode (pc.name ++ "(" ++ String.intercalate ", " (pc.params.getD []) ++ ")"))]
  ++ (match otruthy pc.description with
      | some d => [mdItem 2 ("说明：" ++ mdEscape d)]
      | none => [])
  ++ (match otruthy pc.returns with
      | some r => [mdItem 2 ("返回：" ++ mdEscape r)]
      | none => [])
  ++ (match otruthy (formatCodeRef pc.code_ref) with
      | some code => [mdItem 2 ("代码定位：" ++ mdCode code)]
      | none => [])
  ++ (if pc.steps.length > 0 then
        mdItem 2 ("步骤（" ++ toString pc.steps.length ++ "）") ::
        pc.steps.map (fun step => mdItem (3 + min 6 (max 0 step.indent)) (mdEscape step.text))
      else [])

/-- The 伪代码 block of `moduleToMarkdown`. -/
def pcBlock (m : Module) : List String :=
  if m.pseudocodes.length > 0 then
    mdItem 0 ("伪代码（" ++ toString m.pseudocodes.length ++ "）") ::
    m.pseudocodes.flatMap pcOutlineLines
  else []

/-- `moduleToMarkdown(lines, m)` from manifestClient.ts: the lines it
appends for one module, in emission order. -/
def moduleToMarkdown (m : Module) : List String :=
  [mdTitle 3 (mdEscape m.name ++ "（" ++ mdEscape m.id ++ "）")]
  ++ (if m.description = "" then [] else [mdItem 0 ("说明：" ++ mdEscape m.description)])
  ++ (match m.tags with
      | some ts => if ts.length > 0 then [mdItem 0 ("标签：" ++ mdEscape (String.intercalate "、" ts))] else []
      | none => [])
  ++ (match m.dependencies with
      | some ds => if ds.length > 0 then [mdItem 0 ("依赖：" ++ mdEscape (String.intercalate "、" ds))] else []
      | none => [])
  ++ codeRefsBlock m
  ++ flowsBlock m
  ++ rulesBlock m
  ++ smBlock m
  ++ pcBlock m

/-- One entity's lines of `generateMindmapMarkdown`'s 实体 section.
`e.description` may be absent, in which case JS renders the string
`"undefined"` (`String(undefined)`). -/
def entityLines (e : Entity) : List String :=
  [mdTitle 3 (mdEscape e.name ++ "（" ++ mdEscape e.id ++ "）"),
   mdItem 0 ("说明：" ++ mdEscape (jsStr e.description))]
  ++ (match e.models with
      | some ms => if ms.length > 0 then [mdItem 0 ("关联模型：" ++ mdEscape (String.intercalate "、" ms))] else []
      | none => [])
  ++ (match e.key_fields with
      | some kfs =>
        if kfs.length > 0 then
          mdItem 0 ("核心字段（" ++ toString kfs.length ++ "）") ::
          kfs.map (fun f =>
            let meta := String.intercalate " / "
              (["字段名：" ++ f.name]
                ++ (match otruthy f.source with | some src => ["来源：" ++ src] | none => []))
            mdItem 1 (mdEscape f.label ++ "：" ++ mdEscape f.description ++ "（" ++ mdEscape meta ++ "）"))
        else []
      | none => [])
  ++ (match e.statuses with
      | some sts =>
        if sts.length > 0 then
          mdItem 0 ("状态（" ++ toString sts.length ++ "）") ::
          sts.map (fun s =>
            mdItem 1 (mdEscape s.label ++ "（" ++ mdEscape s.value ++ "）"
              ++ (match otruthy s.description with | some d => "：" ++ mdEscape d | none => "")))
        else []
      | none => [])

/-- One data model's lines of `generateMindmapMarkdown`'s 数据模型
section. -/
def dataModelLines (dm : DataModel) : List String :=
  [mdTitle 3 (mdEscape dm.name ++ "（" ++ mdEscape dm.table ++ "）"),
   mdItem 0 ("说明：" ++ mdEscape dm.description)]
  ++ (match otruthy dm.entity with
      | some e => [mdItem 0 ("对应实体：" ++ mdEscape e)]
      | none => [])
  ++ (match dm.source with
      | some src => if src.file = "" then [] else [mdItem 0 ("来源：" ++ mdCode src.file)]
      | none => [])
  ++ (if dm.fields.length > 0 then
        mdItem 0 ("字段（" ++ toString dm.fields.length ++ "）") ::
        dm.fields.map (fun f => mdItem 1 (mdCode (f.name ++ ": " ++ f.type) ++ " - " ++ mdEscape f.label))
      else [])

/-- The lines of `generateMindmapMarkdown` once the entities list has been
successfully dereferenced, in emission order. -/
def mindmapLinesOk (manifest : LogicManifest) (es : List Entity) : List String :=
  [mdTitle 1 ("项目：" ++ mdEscape manifest.project.name ++ "（" ++ mdEscape manifest.project.id
      ++ "） v" ++ mdEscape manifest.project.version),
   mdItem 0 ("项目说明：" ++ mdEscape manifest.project.description),
   mdItem 0 ("更新时间：" ++ mdEscape manifest.project.updated_at),
   mdTitle 2 ("模块（" ++ toString manifest.modules.length ++ "）")]
  ++ manifest.modules.flatMap moduleToMarkdown
  ++ [mdTitle 2 ("实体（" ++ toString es.length ++ "）")]
  ++ es.flatMap entityLines
  ++ [mdTitle 2 ("数据模型（" ++ toString manifest.data_models.length ++ "）")]
  ++ manifest.data_models.flatMap dataModelLines
  ++ [mdTitle 2 ("术语表（" ++ toString manifest.glossary.length ++ "）")]
  ++ manifest.glossary.map (fun kv =>
      mdItem 0 (mdEscape kv.1 ++ "（" ++ mdEscape kv.2.term ++ "）：" ++ mdEscape kv.2.description))
  ++ [mdTitle 2 ("变更历史（" ++ toString manifest.changelog.length ++ "）")]
  ++ manifest.changelog.map (fun c =>
      mdItem 0 (mdEscape c.date ++ " / " ++ mdEscape c.type ++ "：" ++ mdEscape c.summary))

/-- The line list of `generateMindmapMarkdown`.  When `manifest.entities`
is absent, the source evaluates `manifest.entities.length` and throws a
`TypeError`; `Except.error ()` models the throw. -/
def mindmapLines (manifest : LogicManifest) : Except Unit (List String) :=
  match manifest.entities with
  | none => Except.error ()
  | some es => Except.ok (mindmapLinesOk manifest es)

/-- `generateMindmapMarkdown(manifest)` from manifestClient.ts:
`lines.join('\n') + '\n'` on success, a thrown `TypeError` (modelled as
`Except.error ()`) when the optional `entities` list is absent. -/
def generateMindmapMarkdown (manifest : LogicManifest) : Except Unit String :=
  (mindmapLines manifest).map (fun ls => String.intercalate "\n" ls ++ "\n")

end Outline

/-! ## Helper lemmas -/

namespace Verif

open Manifest Diagrams

/-- A character of a single-character `replaceAll` output comes from the
replacement or is an unreplaced character of the input. -/
lemma mem_replaceAllL {c pat : Char} {rep cs : List Char}
    (h : c ∈ replaceAllL pat rep cs) : c ∈ rep ∨ (c ≠ pat ∧ c ∈ cs) := by
  rw [replaceAllL, List.mem_flatMap] at h
  obtain ⟨a, ha, hc⟩ := h
  by_cases hap : a = pat
  · rw [if_pos hap] at hc
    exact Or.inl hc
  · rw [if_neg hap] at hc
    rcases List.mem_singleton.mp hc with rfl
    exact Or.inr ⟨hap, ha⟩

/-- Every character of an `escapeLabel` output differs from `"` and from a
raw newline. -/
lemma escapeLabelL_chars {c : Char} {cs : List Char} (h : c ∈ escapeLabelL cs) :
    c ≠ '"' ∧ c ≠ '\n' := by
  rw [escapeLabelL] at h
  rcases mem_replaceAllL h with h1 | ⟨hn, h2⟩
  · -- character of "<br/>"
    have hd : "<br/>".data = ['<', 'b', 'r', '/', '>'] := rfl
    rw [hd] at h1
    simp only [List.mem_cons, List.mem_singleton, List.not_mem_nil, or_false] at h1
    rcases h1 with rfl | rfl | rfl | rfl | rfl
    all_goals exact ⟨by decide, by decide⟩
  · rcases mem_replaceAllL h2 with h3 | ⟨hq, h4⟩
    · rcases List.mem_singleton.mp h3 with rfl
      exact ⟨by decide, by decide⟩
    · rcases mem_replaceAllL h4 with h5 | _
      · rcases List.mem_cons.mp h5 with rfl | h6
        · exact ⟨by decide, by decide⟩
        · rcases List.mem_singleton.mp h6 with rfl
          exact ⟨by decide, by decide⟩
      · exact ⟨hq, hn⟩

/-- Every character of an `escapeMindmapText` output differs from `"`, a
raw newline, and the four ASCII bracket characters. -/
lemma escapeMindmapTextL_chars {c : Char} {cs : List Char} (h : c ∈ escapeMindmapTextL cs) :
    c ≠ '"' ∧ c ≠ '\n' ∧ c ≠ '(' ∧ c ≠ ')' ∧ c ≠ '[' ∧ c ≠ ']' := by
  rw [escapeMindmapTextL] at h
  rcases mem_replaceAllL h with h1 | ⟨hrb, h2⟩
  · rcases List.mem_singleton.mp h1 with rfl
    refine ⟨by decide, by decide, by decide, by decide, by decide, by decide⟩
  · rcases mem_replaceAllL h2 with h3 | ⟨hlb, h4⟩
    · rcases List.mem_singleton.mp h3 with rfl
      refine ⟨by decide, by decide, by decide, by decide, by decide, by decide⟩
    · rcases mem_replaceAllL h4 with h5 | ⟨hrp, h6⟩
      · rcases List.mem_singleton.mp h5 with rfl
        refine ⟨by decide, by decide, by decide, by decide, by decide, by decide⟩
      · rcases mem_replaceAllL h6 with h7 | ⟨hlp, h8⟩
        · rcases List.mem_singleton.mp h7 with rfl
          refine ⟨by decide, by decide, by decide, by decide, by decide, by decide⟩
        · obtain ⟨hq, hn⟩ := escapeLabelL_chars h8
          exact ⟨hq, hn, hlp, hrp, hlb, hrb⟩

/-- With a non-empty prefix the `|| prefix+x` fallback of `safeNodeId`
never fires: the result is the prefix followed by the normalized sanitized
raw component. -/
lemma safeNodeIdL_of_pfx_ne_nil (pfx raw : List Char) (h : pfx ≠ []) :
    safeNodeIdL pfx raw = pfx ++ normalizeL (sanitizeL raw) := by
  rw [safeNodeIdL, if_neg]
  intro hc
  exact h (List.append_eq_nil.mp hc).1

/-- The normalized sanitized raw component is empty or starts with a
non-digit character (`safeNodeId` prepends `_` to a leading digit). -/
lemma normalizeL_sanitizeL_head (raw : List Char) :
    normalizeL (sanitizeL raw) = []
    ∨ ∃ c cs, normalizeL (sanitizeL raw) = c :: cs ∧ c.isDigit = false := by
  rcases h : sanitizeL raw with _ | ⟨c0, rest⟩
  · exact Or.inl (by rw [normalizeL])
  · right
    by_cases hd : c0.isDigit
    · exact ⟨'_', c0 :: rest, by rw [normalizeL, if_pos hd], by decide⟩
    · exact ⟨c0, rest, by rw [normalizeL, if_neg hd], by simpa using hd⟩

/-- `Nat.digitChar` of a value below ten is a decimal digit. -/
lemma digitChar_isDigit {k : Nat} (h : k < 10) : (Nat.digitChar k).isDigit = true := by
  interval_cases k <;> rfl

/-- All characters accumulated by `Nat.toDigitsCore` at base ten are
decimal digits, provided the seed characters are. -/
lemma toDigitsCore_all_digits :
    ∀ (fuel n : Nat) (ds : List Char), (∀ c ∈ ds, c.isDigit = true) →
      ∀ c ∈ Nat.toDigitsCore 10 fuel n ds, c.isDigit = true := by
  intro fuel
  induction fuel with
  | zero =>
    intro n ds h c hc
    exact h c hc
  | succ fuel ih =>
    intro n ds h c hc
    rw [Nat.toDigitsCore] at hc
    by_cases hz : n / 10 = 0
    · rw [if_pos hz] at hc
      rcases List.mem_cons.mp hc with rfl | hmem
      · exact digitChar_isDigit (Nat.mod_lt n (by omega))
      · exact h c hmem
    · rw [if_neg hz] at hc
      refine ih (n / 10) (Nat.digitChar (n % 10) :: ds) ?_ c hc
      intro b hb
      rcases List.mem_cons.mp hb with rfl | hmem
      · exact digitChar_isDigit (Nat.mod_lt n (by omega))
      · exact h b hmem

/-- `Nat.toDigitsCore` with positive fuel never returns the empty list
when seeded with any accumulator it would extend. -/
lemma toDigitsCore_ne_nil :
    ∀ (fuel n : Nat) (ds : List Char), fuel ≠ 0 → Nat.toDigitsCore 10 fuel n ds ≠ [] := by
  intro fuel
  induction fuel with
  | zero =>
    intro n ds h
    exact absurd rfl h
  | succ fuel ih =>
    intro n ds _
    rw [Nat.toDigitsCore]
    by_cases hz : n / 10 = 0
    · rw [if_pos hz]
      exact List.cons_ne_nil _ _
    · rw [if_neg hz]
      rcases Nat.eq_zero_or_pos fuel with rfl | hpos
      · rw [Nat.toDigitsCore]
        exact List.cons_ne_nil _ _
      · exact ih (n / 10) (Nat.digitChar (n % 10) :: ds) (Nat.pos_iff_ne_zero.mp hpos)

/-- The decimal representation of a natural number is non-empty and
starts with a decimal digit. -/
lemma natRepr_head_digit (n : Nat) :
    ∃ c cs, (Nat.repr n).data = c :: cs ∧ c.isDigit = true := by
  have h1 : Nat.toDigits 10 n ≠ [] := toDigitsCore_ne_nil (n + 1) n [] (by omega)
  rcases hl : Nat.toDigits 10 n with _ | ⟨c, cs⟩
  · exact absurd hl h1
  · refine ⟨c, cs, ?_, ?_⟩
    · show Nat.toDigits 10 n = c :: cs
      exact hl
    · refine toDigitsCore_all_digits (n + 1) n [] (by intro b hb; cases hb) c ?_
      show c ∈ Nat.toDigits 10 n
      rw [hl]
      exact List.mem_cons_self c cs

/-- The data of the alias `S${i+1}`. -/
lemma stateAlias_data (i : Nat) :
    (stateAlias i).data = 'S' :: (Nat.repr (i + 1)).data := by
  rw [stateAlias]
  rw [String.data_append]
  rfl

/-- A minted alias `S${i+1}` is never the empty string. -/
lemma stateAlias_ne_empty (i : Nat) : stateAlias i ≠ "" := by
  intro h
  have hd := congrArg String.data h
  rw [stateAlias_data] at hd
  exact List.cons_ne_nil _ _ hd

/-- Any alias found in the `aliasById` map is of the form `S${i+1}`. -/
lemma foldl_alias_shape (key : String) :
    ∀ (ps : List (Nat × StateDefinition)) (acc : Option String),
      (∀ b, acc = some b → ∃ i, b = stateAlias i) →
      ∀ a, ps.foldl (fun acc p => if p.2.id = key then some (stateAlias p.1) else acc) acc = some a →
        ∃ i, a = stateAlias i := by
  intro ps
  induction ps with
  | nil =>
    intro acc hacc a h
    exact hacc a h
  | cons p ps ih =>
    intro acc hacc a h
    refine ih _ ?_ a h
    intro b hb
    have hb' : (if p.2.id = key then some (stateAlias p.1) else acc) = some b := hb
    by_cases hp : p.2.id = key
    · rw [if_pos hp] at hb'
      exact ⟨p.1, (Option.some.inj hb').symm⟩
    · rw [if_neg hp] at hb'
      exact hacc b hb'

/-- Specialization of `foldl_alias_shape` to `aliasById`. -/
lemma aliasById_shape {states : List StateDefinition} {key a : String}
    (h : aliasById states key = some a) : ∃ i, a = stateAlias i :=
  foldl_alias_shape key states.enum none (fun b hb => absurd hb (by simp)) a h

/-- `safeNodeId` with the non-empty prefix `"S"` yields a string whose
data starts with `'S'`. -/
lemma safeNodeId_S_data (x : String) :
    (safeNodeId "S" x).data = 'S' :: normalizeL (sanitizeL x.data) := by
  show (safeNodeIdL "S".data x.data) = _
  rw [safeNodeIdL_of_pfx_ne_nil _ _ (by decide)]
  rfl

/-- The alias resolved for any id (declared or dangling) is non-empty. -/
lemma resolveAlias_ne_empty (states : List StateDefinition) (key : String) :
    resolveAlias states key ≠ "" := by
  rw [resolveAlias]
  rcases h : aliasById states key with _ | a
  · show safeNodeId "S" key ≠ ""
    intro he
    have hd := congrArg String.data he
    rw [safeNodeId_S_data] at hd
    exact List.cons_ne_nil _ _ hd
  · show a ≠ ""
    obtain ⟨i, rfl⟩ := aliasById_shape h
    exact stateAlias_ne_empty i

/-- Inserting into a list commutes with filtering on an order value: this
is the key-wise stability of the insertion. -/
lemma filter_orderedInsert (c : Int) (a : FlowStep) :
    ∀ l : List FlowStep,
      (List.orderedInsert stepLE a l).filter (fun s => s.order == c)
        = (a :: l).filter (fun s => s.order == c)
  | [] => rfl
  | b :: l => by
    by_cases hab : stepLE a b
    · rw [List.orderedInsert, if_pos hab]
    · rw [List.orderedInsert, if_neg hab]
      have hba : b.order < a.order := by
        rw [stepLE] at hab
        omega
      by_cases hac : a.order = c
      · have hbc : (b.order == c) = false := by
          refine beq_eq_false_iff_ne.mpr ?_
          omega
        have hacb : (a.order == c) = true := beq_iff_eq.mpr hac
        rw [List.filter_cons, hbc, List.filter_cons, hacb,
          filter_orderedInsert c a l, List.filter_cons, hacb, List.filter_cons, hbc]
        simp
      · have hacb : (a.order == c) = false := beq_eq_false_iff_ne.mpr hac
        rw [List.filter_cons, List.filter_cons, hacb,
          filter_orderedInsert c a l, List.filter_cons, hacb]
        simp [List.filter_cons]

/-- Key-wise stability of the step sort: for every order value, the steps
with that order appear in the sorted list exactly as they appeared in the
input (same elements, same relative order). -/
lemma filter_sortSteps (c : Int) :
    ∀ steps : List FlowStep,
      (sortSteps steps).filter (fun s => s.order == c)
        = steps.filter (fun s => s.order == c)
  | [] => rfl
  | a :: l => by
    rw [sortSteps, List.insertionSort, filter_orderedInsert c a (List.insertionSort stepLE l),
      List.filter_cons, List.filter_cons]
    have ih := filter_sortSteps c l
    rw [sortSteps] at ih
    rw [ih]

end Verif

/-! ## Concrete fixtures -/

namespace Verif

/-- A minimal project header. -/
def sampleProject : Manifest.ProjectInfo :=
  { id := "p", name := "P", description := "d", version := "1", updated_at := "t" }

/-- A manifest whose optional `entities` list is absent. -/
def mfNoEntities : Manifest.LogicManifest :=
  { schema := "s"
    project := sampleProject
    modules := []
    data_models := []
    entities := none
    glossary := []
    changelog := [] }

/-- The spec's ordering scenario: a flow whose steps carry order values
`[3, 1, 2]` in array order. -/
def flow312 : Manifest.Flow :=
  { id := "f1"
    name := "订单流程"
    trigger := some "下单"
    steps := [{ id := "a", order := 3, name := "third" },
              { id := "b", order := 1, name := "first" },
              { id := "c", order := 2, name := "second" }] }

/-- A module with every sub-collection empty. -/
def cexModule4 : Manifest.Module :=
  { id := "mid"
    name := "m"
    description := "d"
    flows := []
    rules := []
    state_machines := []
    pseudocodes := [] }

/-- A manifest holding only `cexModule4`, with an empty (present)
entities list. -/
def cexMf4 : Manifest.LogicManifest :=
  { schema := "s"
    project := sampleProject
    modules := [cexModule4]
    data_models := []
    entities := some []
    glossary := []
    changelog := [] }

/-- A module depending on the empty-string id. -/
def cexA5 : Manifest.Module :=
  { id := "a"
    name := "A"
    description := ""
    dependencies := some [""]
    flows := []
    rules := []
    state_machines := []
    pseudocodes := [] }

/-- A module whose id is the empty string. -/
def cexB5 : Manifest.Module :=
  { id := ""
    name := "B"
    description := ""
    flows := []
    rules := []
    state_machines := []
    pseudocodes := [] }

/-- Module `A` depending on module `wB5`. -/
def wA5 : Manifest.Module :=
  { id := "a"
    name := "A"
    description := ""
    dependencies := some ["b"]
    flows := []
    rules := []
    state_machines := []
    pseudocodes := [] }

/-- Module `B`, the dependency target. -/
def wB5 : Manifest.Module :=
  { id := "b"
    name := "B"
    description := ""
    flows := []
    rules := []
    state_machines := []
    pseudocodes := [] }

/-- A state machine with one declared state and a transition whose `to`
id is dangling. -/
def wSm6 : Manifest.StateMachine :=
  { id := "sm"
    name := "s"
    entity := "E"
    field := "f"
    states := [{ id := "a", name := "A" }]
    transitions := [{ «from» := "a", «to» := "ghost", trigger := "g" }] }

/-- The dangling transition of `wSm6`. -/
def wT6 : Manifest.StateTransition :=
  { «from» := "a", «to» := "ghost", trigger := "g" }

/-- A flow with zero steps. -/
def wFlow8 : Manifest.Flow :=
  { id := "f", name := "n", steps := [] }

end Verif

/-! ## Claim theorems -/

open Manifest Verif

/-- **C1** — The claim states that every emitter is total over the manifest
shapes, even when the optional `entities` list is absent.  The code
violates this: `generateMindmapMarkdown` evaluates
`manifest.entities.length` without a guard, so a manifest without
`entities` throws a `TypeError` (modelled as `Except.error ()`), while the
four diagram emitters are indeed total.  This theorem evaluates the
embedded emitter at such a failing input. -/
theorem mindmap_markdown_throws_on_absent_entities :
    Outline.generateMindmapMarkdown mfNoEntities = Except.error () := rfl

/-- **C3** — The claim states that `safeNodeId` falls back to
`prefix ++ "x"` whenever the sanitized raw component is empty, so the
result is never the bare prefix.  The code violates this: the fallback
`` `${prefix}${normalized}` || `${prefix}x` `` only fires when the whole
concatenation is the empty string, so with the non-empty prefix `"mod_"`
and empty raw input the function returns the bare prefix `"mod_"`, not
`"mod_x"`. -/
theorem safeNodeId_bare_pfx_on_empty_raw :
    Diagrams.safeNodeId "mod_" "" = "mod_"
    ∧ Diagrams.safeNodeId "mod_" "" ≠ "mod_" ++ "x" := by
  constructor
  · rfl
  · decide

/-- **C8** — A flow with zero steps produces no step nodes: the emitted
lines are exactly the title/trigger prelude, one placeholder 暂无步骤 node,
one edge from the trigger node to that placeholder, and the optional
code-reference block. -/
theorem flowchart_empty_steps_placeholder (flow : Flow) (rules : List Rule)
    (h : flow.steps = []) :
    Diagrams.flowLines flow rules =
      ["flowchart TD",
       "  T[\"" ++ Diagrams.escapeLabel flow.name ++ "\"]",
       "  TR([\"" ++ Diagrams.escapeLabel (Diagrams.triggerLabel flow) ++ "\"])",
       "  T --> TR",
       "  EMPTY[\"暂无步骤\"]",
       "  TR --> EMPTY"] ++ Diagrams.codeRefLines flow := by
  rw [Diagrams.flowLines, h]
  simp [Manifest.sortSteps, Diagrams.chainLines]

/-- Witness for **C8** at a concrete zero-step flow. -/
theorem flowchart_empty_steps_witness :
    Diagrams.flowLines wFlow8 [] =
      ["flowchart TD",
       "  T[\"" ++ Diagrams.escapeLabel wFlow8.name ++ "\"]",
       "  TR([\"" ++ Diagrams.escapeLabel (Diagrams.triggerLabel wFlow8) ++ "\"])",
       "  T --> TR",
       "  EMPTY[\"暂无步骤\"]",
       "  TR --> EMPTY"] ++ Diagrams.codeRefLines wFlow8 :=
  flowchart_empty_steps_placeholder wFlow8 [] rfl

/-- **C9** — Every emitter is deterministic: its output depends only on
the input fragment, so equal inputs give byte-identical outputs (the
embedding is pure, mirroring the absence of hidden state in the source). -/
theorem emitters_deterministic (mf mf' : LogicManifest) (fl fl' : Flow)
    (rs rs' : List Rule) (sm sm' : StateMachine) :
    (mf = mf' →
      Diagrams.generateProjectMindmap mf = Diagrams.generateProjectMindmap mf'
      ∧ Diagrams.generateModuleDependencyGraph mf = Diagrams.generateModuleDependencyGraph mf'
      ∧ Outline.generateMindmapMarkdown mf = Outline.generateMindmapMarkdown mf')
    ∧ (fl = fl' → rs = rs' →
      Diagrams.generateFlowchartForFlow fl rs = Diagrams.generateFlowchartForFlow fl' rs')
    ∧ (sm = sm' →
      Diagrams.generateStateDiagram sm = Diagrams.generateStateDiagram sm') := by
  refine ⟨fun h => ?_, fun h h' => by rw [h, h'], fun h => by rw [h]⟩
  subst h
  exact ⟨rfl, rfl, rfl⟩

/-- Witness for **C9** at concrete inputs. -/
theorem emitters_deterministic_witness :
    Diagrams.generateStateDiagram wSm6 = Diagrams.generateStateDiagram wSm6 :=
  (emitters_deterministic mfNoEntities mfNoEntities flow312 flow312 [] [] wSm6 wSm6).2.2 rfl

/-- **C7** — `escapeLabel` output contains no double-quote character and
no raw newline, and `escapeMindmapText` output additionally contains no
ASCII `(`, `)`, `[` or `]`. -/
theorem escape_no_reserved_chars (s : String) :
    ('"' ∉ (Diagrams.escapeLabel s).data ∧ '\n' ∉ (Diagrams.escapeLabel s).data)
    ∧ ('"' ∉ (Diagrams.escapeMindmapText s).data
       ∧ '\n' ∉ (Diagrams.escapeMindmapText s).data
       ∧ '(' ∉ (Diagrams.escapeMindmapText s).data
       ∧ ')' ∉ (Diagrams.escapeMindmapText s).data
       ∧ '[' ∉ (Diagrams.escapeMindmapText s).data
       ∧ ']' ∉ (Diagrams.escapeMindmapText s).data) := by
  refine ⟨⟨fun h => ?_, fun h => ?_⟩, fun h => ?_, fun h => ?_, fun h => ?_, fun h => ?_, fun h => ?_, fun h => ?_⟩
  · have h' : '"' ∈ Diagrams.escapeLabelL s.data := h
    exact (escapeLabelL_chars h').1 rfl
  · have h' : '\n' ∈ Diagrams.escapeLabelL s.data := h
    exact (escapeLabelL_chars h').2 rfl
  · have h' : '"' ∈ Diagrams.escapeMindmapTextL s.data := h
    exact (escapeMindmapTextL_chars h').1 rfl
  · have h' : '\n' ∈ Diagrams.escapeMindmapTextL s.data := h
    exact (escapeMindmapTextL_chars h').2.1 rfl
  · have h' : '(' ∈ Diagrams.escapeMindmapTextL s.data := h
    exact (escapeMindmapTextL_chars h').2.2.1 rfl
  · have h' : ')' ∈ Diagrams.escapeMindmapTextL s.data := h
    exact (escapeMindmapTextL_chars h').2.2.2.1 rfl
  · have h' : '[' ∈ Diagrams.escapeMindmapTextL s.data := h
    exact (escapeMindmapTextL_chars h').2.2.2.2.1 rfl
  · have h' : ']' ∈ Diagrams.escapeMindmapTextL s.data := h
    exact (escapeMindmapTextL_chars h').2.2.2.2.2 rfl

/-- Witness for **C7** at a concrete label holding every hazardous
character. -/
theorem escape_no_reserved_witness :
    '"' ∉ (Diagrams.escapeLabel "a\"b\nc(1)[2]\\").data :=
  (escape_no_reserved_chars "a\"b\nc(1)[2]\\").1.1

/-- **C6** — `generateStateDiagram` never throws on a transition whose
`from` or `to` id matches no declared state: every transition of the
machine still contributes an arrow line to the output, and both endpoint
aliases (declared, or minted on demand via `safeNodeId` with prefix `S`)
are non-empty. -/
theorem stateDiagram_dangling_transition_total (sm : StateMachine) (t : StateTransition)
    (ht : t ∈ sm.transitions) :
    Diagrams.transitionLine sm.states t ∈ Diagrams.stateDiagramLines sm
    ∧ Diagrams.resolveAlias sm.states t.«from» ≠ ""
    ∧ Diagrams.resolveAlias sm.states t.«to» ≠ "" := by
  refine ⟨?_, resolveAlias_ne_empty sm.states t.«from», resolveAlias_ne_empty sm.states t.«to»⟩
  rw [Diagrams.stateDiagramLines]
  refine List.mem_append_left _ ?_
  refine List.mem_append_right _ ?_
  exact List.mem_map_of_mem (Diagrams.transitionLine sm.states) ht

/-- Witness for **C6** at a machine whose only transition has a dangling
`to` id. -/
theorem stateDiagram_dangling_witness :
    Diagrams.transitionLine wSm6.states wT6 ∈ Diagrams.stateDiagramLines wSm6
    ∧ Diagrams.resolveAlias wSm6.states wT6.«from» ≠ ""
    ∧ Diagrams.resolveAlias wSm6.states wT6.«to» ≠ "" :=
  stateDiagram_dangling_transition_total wSm6 wT6 (by decide)

/-- **C10** — An alias minted on demand for a dangling state reference
(`safeNodeId` with prefix `S`) never coincides with a declared alias
`S1`…`Sn`: the minted suffix is empty or starts with a non-digit, while a
declared alias's suffix is a decimal numeral. -/
theorem minted_alias_not_declared (sm : StateMachine) (x : String) (i : Nat)
    (hx : Diagrams.aliasById sm.states x = none) (_hi : i < sm.states.length) :
    Diagrams.resolveAlias sm.states x ≠ Diagrams.stateAlias i := by
  intro heq
  rw [Diagrams.resolveAlias, hx] at heq
  have hdata := congrArg String.data heq
  rw [Option.getD_none, safeNodeId_S_data, stateAlias_data] at hdata
  have htail : Diagrams.normalizeL (Diagrams.sanitizeL x.data) = (Nat.repr (i + 1)).data :=
    (List.cons.injEq _ _ _ _).mp hdata |>.2
  obtain ⟨c, cs, hrepr, hdig⟩ := natRepr_head_digit (i + 1)
  rcases normalizeL_sanitizeL_head x.data with hnil | ⟨c', cs', hcons, hnd⟩
  · rw [hnil, hrepr] at htail
    exact List.cons_ne_nil _ _ htail.symm
  · rw [hcons, hrepr] at htail
    have hc : c' = c := ((List.cons.injEq _ _ _ _).mp htail).1
    rw [hc, hdig] at hnd
    exact absurd hnd (by decide)

/-- Witness for **C10**: the minted alias for the dangling id `ghost`
differs from the declared alias `S1`. -/
theorem minted_alias_witness :
    Diagrams.resolveAlias wSm6.states "ghost" ≠ Diagrams.stateAlias 0 :=
  minted_alias_not_declared wSm6 "ghost" 0 (by decide) (by decide)

/-- **C2** — `generateFlowchartForFlow` renders steps in ascending
`order`, regardless of input array order, with ties keeping their original
relative order: the rendered list is a permutation of the steps, sorted by
`order`, and filtering on any order value returns the steps in input
order; when steps exist the edge leaving the trigger node is
`TR --> S1` and the node `S1` carries the step of minimal order; on the
spec's `[3, 1, 2]` scenario the emitted nodes are chained
step(1) → step(2) → step(3). -/
theorem flowchart_steps_sorted_ascending_stable (flow : Flow) (rules : List Rule) :
    (sortSteps flow.steps).Perm flow.steps
    ∧ List.Sorted stepLE (sortSteps flow.steps)
    ∧ (∀ c : Int, (sortSteps flow.steps).filter (fun s => s.order == c)
        = flow.steps.filter (fun s => s.order == c))
    ∧ (flow.steps ≠ [] → "  TR --> S1" ∈ Diagrams.flowLines flow rules)
    ∧ (∀ s₀, (sortSteps flow.steps).head? = some s₀ →
        (∀ s ∈ flow.steps, s₀.order ≤ s.order)
        ∧ Diagrams.stepNodeLine rules 0 s₀ ∈ Diagrams.flowLines flow rules)
    ∧ Diagrams.flowLines flow312 [] =
        ["flowchart TD", "  T[\"订单流程\"]", "  TR([\"触发：下单\"])", "  T --> TR",
         "  S1[\"1. first\"]", "  S2[\"2. second\"]", "  S3[\"3. third\"]",
         "  TR --> S1", "  S1 --> S2", "  S2 --> S3"] := by
  refine ⟨List.perm_insertionSort stepLE flow.steps,
    List.sorted_insertionSort stepLE flow.steps,
    fun c => filter_sortSteps c flow.steps, ?_, ?_, by decide⟩
  · intro hne
    have hlen : (sortSteps flow.steps).length = flow.steps.length :=
      (List.perm_insertionSort stepLE flow.steps).length_eq
    have h0 : flow.steps.length ≠ 0 := fun h => hne (List.length_eq_zero.mp h)
    obtain ⟨k, hk⟩ := Nat.exists_eq_succ_of_ne_zero h0
    rw [Diagrams.flowLines]
    refine List.mem_append_left _ (List.mem_append_right _ ?_)
    rw [hlen, hk, Diagrams.chainLines]
    exact List.mem_cons_self _ _
  · intro s₀ hs₀
    rcases hl : sortSteps flow.steps with _ | ⟨h0, tl⟩
    · rw [hl] at hs₀
      cases hs₀
    · rw [hl] at hs₀
      have hh : h0 = s₀ := by simpa using hs₀
      subst hh
      constructor
      · intro s hs
        have hmem : s ∈ sortSteps flow.steps :=
          ((List.perm_insertionSort stepLE flow.steps).mem_iff).mpr hs
        rw [hl] at hmem
        rcases List.mem_cons.mp hmem with rfl | htl
        · exact le_refl _
        · have hsorted : List.Sorted stepLE (sortSteps flow.steps) :=
            List.sorted_insertionSort stepLE flow.steps
          rw [hl] at hsorted
          exact (List.sorted_cons.mp hsorted).1 s htl
      · rw [Diagrams.flowLines]
        refine List.mem_append_left _ (List.mem_append_left _ (List.mem_append_right _ ?_))
        rw [hl, List.enum_cons, List.map_cons]
        exact List.mem_cons_self _ _

/-- Witness for **C2**: on the `[3, 1, 2]` scenario the edge leaving the
trigger node goes to the node `S1`. -/
theorem flowchart_sorted_witness :
    "  TR --> S1" ∈ Diagrams.flowLines flow312 [] :=
  (flowchart_steps_sorted_ascending_stable flow312 []).2.2.2.1 (by decide)

/-- **C4 counterexample** — The claim states that every empty collection
the outline emitter walks is announced by a count-0 line, including each
module's sub-collections.  On a manifest whose only module has zero flows,
the full output carries no `- 流程（0）` line at all: the flows block is
guarded by `m.flows.length > 0` and is omitted entirely. -/
theorem outline_empty_subcollection_omitted_cex :
    cexModule4.flows = []
    ∧ Outline.mindmapLines cexMf4 = Except.ok
        ["# 项目：P（p） v1", "- 项目说明：d", "- 更新时间：t", "## 模块（1）",
         "### m（mid）", "- 说明：d", "## 实体（0）", "## 数据模型（0）",
         "## 术语表（0）", "## 变更历史（0）"]
    ∧ "- 流程（0）" ∉
        ["# 项目：P（p） v1", "- 项目说明：d", "- 更新时间：t", "## 模块（1）",
         "### m（mid）", "- 说明：d", "## 实体（0）", "## 数据模型（0）",
         "## 术语表（0）", "## 变更历史（0）"] := by
  refine ⟨rfl, by rfl, by decide⟩

/-- **C4 (amended)** — In the outline emitter the five top-level sections
(模块, 实体, 数据模型, 术语表, 变更历史) are each announced by a heading
carrying their count even when the count is zero (provided the entities
list is present, cf. C1), but a module's empty sub-collections (flows,
rules, state machines, pseudocodes, code refs) contribute no lines at all
— they are omitted rather than announced with a zero count. -/
theorem outline_toplevel_counts_and_subcollection_omission
    (mf : LogicManifest) (es : List Entity) (ls : List String) (m : Module) :
    (mf.entities = some es → Outline.mindmapLines mf = Except.ok ls →
      Outline.mdTitle 2 ("模块（" ++ toString mf.modules.length ++ "）") ∈ ls
      ∧ Outline.mdTitle 2 ("实体（" ++ toString es.length ++ "）") ∈ ls
      ∧ Outline.mdTitle 2 ("数据模型（" ++ toString mf.data_models.length ++ "）") ∈ ls
      ∧ Outline.mdTitle 2 ("术语表（" ++ toString mf.glossary.length ++ "）") ∈ ls
      ∧ Outline.mdTitle 2 ("变更历史（" ++ toString mf.changelog.length ++ "）") ∈ ls)
    ∧ (m.flows = [] → Outline.flowsBlock m = [])
    ∧ (m.rules = [] → Outline.rulesBlock m = [])
    ∧ (m.state_machines = [] → Outline.smBlock m = [])
    ∧ (m.pseudocodes = [] → Outline.pcBlock m = [])
    ∧ ((m.code_refs = none ∨ m.code_refs = some []) → Outline.codeRefsBlock m = []) := by
  refine ⟨?_, ?_, ?_, ?_, ?_, ?_⟩
  · intro he hok
    rw [Outline.mindmapLines, he] at hok
    have hls : ls = Outline.mindmapLinesOk mf es := (Except.ok.inj hok).symm
    subst hls
    rw [Outline.mindmapLinesOk]
    refine ⟨?_, ?_, ?_, ?_, ?_⟩
    · exact List.mem_append_left _ (List.mem_append_left _ (List.mem_append_left _
        (List.mem_append_left _ (List.mem_append_left _ (List.mem_append_left _
          (List.mem_append_left _ (List.mem_append_left _ (List.mem_append_left _
            (by simp)))))))))
    · refine List.mem_append_left _ (List.mem_append_left _ (List.mem_append_left _
        (List.mem_append_left _ (List.mem_append_left _ (List.mem_append_left _
          (List.mem_append_left _ (List.mem_append_right _ (by simp))))))))
    · refine List.mem_append_left _ (List.mem_append_left _ (List.mem_append_left _
        (List.mem_append_left _ (List.mem_append_left _ (List.mem_append_right _ (by simp))))))
    · refine List.mem_append_left _ (List.mem_append_left _ (List.mem_append_left _
        (List.mem_append_right _ (by simp))))
    · refine List.mem_append_left _ (List.mem_append_right _ (by simp))
  · intro h
    rw [Outline.flowsBlock, h]
    rfl
  · intro h
    rw [Outline.rulesBlock, h]
    rfl
  · intro h
    rw [Outline.smBlock, h]
    rfl
  · intro h
    rw [Outline.pcBlock, h]
    rfl
  · rintro (h | h)
    · rw [Outline.codeRefsBlock, h]
    · rw [Outline.codeRefsBlock, h]
      rfl

/-- Witness for **C4 (amended)** at the concrete manifest `cexMf4`. -/
theorem outline_counts_witness :
    Outline.mdTitle 2 ("模块（" ++ toString cexMf4.modules.length ++ "）") ∈
        ["# 项目：P（p） v1", "- 项目说明：d", "- 更新时间：t", "## 模块（1）",
         "### m（mid）", "- 说明：d", "## 实体（0）", "## 数据模型（0）",
         "## 术语表（0）", "## 变更历史（0）"]
    ∧ Outline.flowsBlock cexModule4 = [] :=
  ⟨((outline_toplevel_counts_and_subcollection_omission cexMf4 []
      ["# 项目：P（p） v1", "- 项目说明：d", "- 更新时间：t", "## 模块（1）",
       "### m（mid）", "- 说明：d", "## 实体（0）", "## 数据模型（0）",
       "## 术语表（0）", "## 变更历史（0）"] cexModule4).1 rfl (by rfl)).1,
   (outline_toplevel_counts_and_subcollection_omission cexMf4 []
      ["# 项目：P（p） v1", "- 项目说明：d", "- 更新时间：t", "## 模块（1）",
       "### m（mid）", "- 说明：d", "## 实体（0）", "## 数据模型（0）",
       "## 术语表（0）", "## 变更历史（0）"] cexModule4).2.1 rfl⟩

/-- **C5 counterexample** — The claim quantifies over manifests containing
modules `A` and `B` where `A`'s dependency list is `[B's id]`, and demands
exactly one emitted edge.  With `B.id = ""` the dependency string is falsy
and is dropped by `uniqueStrings`, so the emitter draws no edge at all. -/
theorem depGraph_empty_id_dependency_cex :
    cexA5.dependencies = some [cexB5.id]
    ∧ Diagrams.depEdgesAll [cexA5, cexB5] = [] :=
  ⟨rfl, by decide⟩

/-- **C5 (amended)** — Provided the dependency string is non-empty (empty
strings are dropped by `uniqueStrings` before edges are drawn): for
modules `A` and `B` where `A` depends on `[B.id]` and `B` declares no
dependencies, the edge section consists of exactly the single edge from
`A`'s node to `B`'s node (so no external node); for a lone module `A`
depending on an undeclared id `C`, it consists of exactly one external
node keyed by `C` (minted with the `ext_` prefix) and one edge from `A`'s
node to it; and an `ext_`-minted id never equals a `mod_`-minted one. -/
theorem depGraph_dependency_resolution_amended (A B : Module) (C : String) :
    (A.dependencies = some [B.id] → B.id ≠ "" → B.dependencies = none →
      Diagrams.depEdgesAll [A, B] =
        ["  " ++ Diagrams.safeNodeId "mod_" A.id ++ " --> " ++ Diagrams.safeNodeId "mod_" B.id])
    ∧ (A.dependencies = some [C] → C ≠ "" → C ≠ A.id →
      Diagrams.depEdgesAll [A] =
        ["  " ++ Diagrams.safeNodeId "ext_" C ++ "[\"" ++ Diagrams.escapeLabel C ++ "<br/>(外部/未知模块)\"]",
         "  " ++ Diagrams.safeNodeId "mod_" A.id ++ " --> " ++ Diagrams.safeNodeId "ext_" C])
    ∧ (∀ x y : String, Diagrams.safeNodeId "ext_" x ≠ Diagrams.safeNodeId "mod_" y) := by
  refine ⟨?_, ?_, ?_⟩
  · intro h1 h2 h3
    have hbeq : (B.id == "") = false := beq_eq_false_iff_ne.mpr h2
    rw [Diagrams.depEdgesAll]
    simp only [List.flatMap_cons, List.flatMap_nil, List.append_nil]
    rw [Diagrams.depEdgeLines, Diagrams.depEdgeLines, h1, h3]
    simp only [Option.getD_some, Option.getD_none]
    rw [Diagrams.uniqueStrings, Diagrams.uniqueStrings]
    simp only [List.filter_cons, List.filter_nil, hbeq, Bool.not_false, Diagrams.dedupAux]
    have hfind : Diagrams.byId [A, B] B.id = some B := by
      rw [Diagrams.byId]
      show (if B.id = B.id then some B else if A.id = B.id then some A else none) = some B
      rw [if_pos rfl]
    rw [if_neg (List.not_mem_nil B.id), List.flatMap_cons, hfind]
    rfl
  · intro h1 h2 h3
    have hbeq : (C == "") = false := beq_eq_false_iff_ne.mpr h2
    rw [Diagrams.depEdgesAll]
    simp only [List.flatMap_cons, List.flatMap_nil, List.append_nil]
    rw [Diagrams.depEdgeLines, h1]
    simp only [Option.getD_some]
    rw [Diagrams.uniqueStrings]
    simp only [List.filter_cons, List.filter_nil, hbeq, Bool.not_false, Diagrams.dedupAux]
    have hfind : Diagrams.byId [A] C = none := by
      rw [Diagrams.byId]
      show (if A.id = C then some A else none) = none
      rw [if_neg (fun h => h3 h.symm)]
    rw [if_neg (List.not_mem_nil C), List.flatMap_cons, hfind]
    rfl
  · intro x y heq
    have hd := congrArg String.data heq
    have hx : (Diagrams.safeNodeId "ext_" x).data
        = "ext_".data ++ Diagrams.normalizeL (Diagrams.sanitizeL x.data) :=
      safeNodeIdL_of_pfx_ne_nil "ext_".data x.data (by decide)
    have hy : (Diagrams.safeNodeId "mod_" y).data
        = "mod_".data ++ Diagrams.normalizeL (Diagrams.sanitizeL y.data) :=
      safeNodeIdL_of_pfx_ne_nil "mod_".data y.data (by decide)
    rw [hx, hy] at hd
    have hhead : 'e' = 'm' := by
      have : ('e' :: ("xt_".data ++ Diagrams.normalizeL (Diagrams.sanitizeL x.data)))
          = 'm' :: ("od_".data ++ Diagrams.normalizeL (Diagrams.sanitizeL y.data)) := hd
      exact ((List.cons.injEq _ _ _ _).mp this).1
    exact absurd hhead (by decide)

/-- Witness for **C5 (amended)** at concrete modules `wA5` (depending on
`"b"`) and `wB5` (id `"b"`). -/
theorem depGraph_resolution_witness :
    Diagrams.depEdgesAll [wA5, wB5] =
      ["  " ++ Diagrams.safeNodeId "mod_" wA5.id ++ " --> " ++ Diagrams.safeNodeId "mod_" wB5.id] :=
  (depGraph_dependency_resolution_amended wA5 wB5 "c").1 rfl (by decide) rfl
